import Mathlib

/-!
Shallow embedding of the cache lifecycle controller in `src/sw.js` of the
PWA-Calendar-Calc repository, together with proofs settling the frozen claims
about it.  Pure data is modelled directly; the service-worker's asynchronous
effects are modelled by explicit state passing (cache contents, the memoized
install promise, the background-refresh timestamp) and, for the activation
handler, by the deterministic event trace of the single-threaded event loop.
Network fetches are oracles supplied as parameters.
-/

namespace SW

/-! ### Models of the JavaScript string primitives used by sw.js -/

/-- Models JavaScript `String.prototype.startsWith(p)`: `p` is a prefix of `s`. -/
def jsStartsWith (s p : String) : Bool :=
  p.data.isPrefixOf s.data

/-- Models JavaScript `String.prototype.endsWith(p)`: `p` is a suffix of `s`. -/
def jsEndsWith (s p : String) : Bool :=
  p.data.isSuffixOf s.data

/-- Models JavaScript `String.prototype.includes(p)`: `p` occurs contiguously in `s`. -/
def jsIncludes (s p : String) : Bool :=
  decide (List.IsInfix p.data s.data)

/-! ### Constants (sw.js lines 2-19)

`CACHE_VERSION` is `'v1.72-' + new Date().getTime()`; the timestamp taken at
script evaluation is the parameter `t`. -/

def CACHE_BASE_NAME : String := "calendar-calculator"

def CACHE_VERSION (t : Nat) : String := "v1.72-" ++ toString t

def CACHE_NAME (t : Nat) : String := CACHE_BASE_NAME ++ "-" ++ CACHE_VERSION t

def URLS_TO_CACHE : List String :=
  ["./", "./index.html", "./i18n.js", "./manifest.json", "./sw.js",
   "./i18n/cs.json", "./i18n/en.json", "./i18n/de.json", "./i18n/fr.json",
   "./i18n/es.json", "./i18n/ru.json", "./i18n/uk.json"]

/-! ### Responses and the versioned cache store -/

/-- Model of a `Response`: status, `Content-Type` header, body text. -/
structure Response where
  status : Nat
  contentType : String
  body : String
deriving DecidableEq, Repr

/-- Models `response.ok`: status in the range 200-299. -/
def Response.ok (r : Response) : Bool :=
  decide (200 ≤ r.status) && decide (r.status ≤ 299)

/-- One version's cache store: an association list from resource identifier
(URL key) to the stored response. -/
abbrev Cache := List (String × Response)

/-- Models `cache.match(url)`: the first entry stored under `url`, if any. -/
def cacheMatch (c : Cache) (url : String) : Option Response :=
  (c.find? (fun e => e.1 == url)).map (fun e => e.2)

/-- Models `cache.put(url, r)`: last write for an identifier wins within a
version, no error on duplicate put (spec 4.1). -/
def cachePut (c : Cache) (url : String) (r : Response) : Cache :=
  if c.any (fun e => e.1 == url) then
    c.map (fun e => if e.1 == url then (url, r) else e)
  else
    c ++ [(url, r)]

/-! ### Install (sw.js lines 21-71) -/

/-- Outcome of one `fetch(url)` as seen by the install code: the promise
rejects (`netFail`, covering network errors and timeouts) or resolves with a
response. -/
inductive FetchOutcome where
  | netFail
  | resp (r : Response)
deriving DecidableEq, Repr

/-- Network oracle for install: the settled outcome of `fetch(url)` for each
manifest identifier. -/
abbrev Network := String → FetchOutcome

/-- A resource "fails to fetch" during install when its fetch rejects or the
response is not ok (line 46 throws on `!response.ok`). -/
def fetchFailed : FetchOutcome → Bool
  | .netFail => true
  | .resp r => !r.ok

/-- Settled state of a promise, as classified by `Promise.allSettled`. -/
inductive Settled where
  | fulfilled
  | rejected
deriving DecidableEq, Repr

/-- Models the JS `.catch(h)` combinator on a settled computation. -/
def jsCatch {α : Type} (x : Except String α) (h : String → Except String α) :
    Except String α :=
  match x with
  | .ok a => .ok a
  | .error e => h e

/-- The per-URL promise built at lines 40-52:
`fetch(url).then(r => r.ok ? cache.put(url, r) : throw).catch(e => Promise.resolve())`.
The trailing catch converts every failure into a fulfilled promise. -/
def fetchAndPut (url : String) (o : FetchOutcome) : Except String Unit :=
  jsCatch
    (match o with
     | .netFail => .error "TypeError: Failed to fetch"
     | .resp r => if r.ok then .ok () else .error ("Failed to fetch: " ++ url))
    (fun _ => .ok ())

/-- Classification of a settled computation by `Promise.allSettled`. -/
def settledOf {α : Type} : Except String α → Settled
  | .ok _ => .fulfilled
  | .error _ => .rejected

/-- The cache mutation performed by the per-URL promise: a put on ok
responses, nothing otherwise. -/
def installStep (c : Cache) (url : String) (o : FetchOutcome) : Cache :=
  match o with
  | .netFail => c
  | .resp r => if r.ok then cachePut c url r else c

/-- Result of the whole install chain. -/
structure InstallOutcome where
  cache : Cache
  successCount : Nat
  failedCount : Nat
  reportedComplete : Bool
  isInstalled : Bool
  skipWaitingCalled : Bool
deriving DecidableEq, Repr

/-- The install promise chain, lines 35-68: open the (fresh, hence empty)
cache for `CACHE_NAME`, run all per-URL fetch-and-put promises, let
`Promise.allSettled` collect their settled states, then count
fulfilled/rejected results, log completion, set the installed flag and call
`skipWaiting`.  The final `.catch` (lines 65-68) would still call
`skipWaiting`; it is unreachable because `allSettled` never rejects and
nothing in the tally throws. -/
def installRun (urls : List String) (net : Network) : InstallOutcome :=
  { cache := urls.foldl (fun c u => installStep c u (net u)) []
    successCount :=
      ((urls.map (fun u => settledOf (fetchAndPut u (net u)))).filter
        (fun r => r == .fulfilled)).length
    failedCount :=
      ((urls.map (fun u => settledOf (fetchAndPut u (net u)))).filter
        (fun r => r == .rejected)).length
    reportedComplete := true
    isInstalled := true
    skipWaitingCalled := true }

/-- The install event listener, lines 27-71, as a state transformer on the
memoized `installPromise` (initially `none`, never reset).  Returns the new
memo state, the outcome this invocation waits on (`event.waitUntil`), and the
number of network fetches this invocation performs (one per manifest URL when
the install body actually runs, none when coalescing onto the memo). -/
def handleInstall (urls : List String) (net : Network)
    (st : Option InstallOutcome) : Option InstallOutcome × InstallOutcome × Nat :=
  match st with
  | some p => (some p, p, 0)
  | none =>
      let o := installRun urls net
      (some o, o, urls.length)


/-! ### Activation (sw.js lines 74-114) -/

/-- Names of the caches that survive the activate cleanup (lines 80-89):
a cache is deleted exactly when its name starts with `CACHE_BASE_NAME` and
differs from the current `CACHE_NAME`. -/
def activateCleanup (t : Nat) (cacheNames : List String) : List String :=
  cacheNames.filter (fun n => !(jsStartsWith n CACHE_BASE_NAME && n != CACHE_NAME t))

/-- Events of the activate handler, in the order the single-threaded event
loop performs them. -/
inductive ActEvent where
  | keysRequested
  | claimRequested
  | deleteCache (name : String)
  | setInstalled
  | matchAllRequested
  | post (client : Nat) (tag : String)
deriving DecidableEq, Repr

/-- The activate listener (lines 74-114) as the deterministic event trace of
the event loop: `caches.keys()` and `self.clients.claim()` are both invoked
synchronously, in source order, when `Promise.all([...])` is built; the
per-cache deletions run only after `keys()` resolves; after both branches of
the `Promise.all` settle, the installed flag is set, `clients.matchAll()` is
requested, and each connected client is posted the `SW_ACTIVATED` message. -/
def activateTrace (t : Nat) (cacheNames : List String) (clients : List Nat) :
    List ActEvent :=
  [ActEvent.keysRequested, ActEvent.claimRequested]
  ++ (cacheNames.filter
        (fun n => jsStartsWith n CACHE_BASE_NAME && n != CACHE_NAME t)).map
       ActEvent.deleteCache
  ++ [ActEvent.setInstalled, ActEvent.matchAllRequested]
  ++ clients.map (fun c => ActEvent.post c "SW_ACTIVATED")

/-- In trace `tr`, every event satisfying `p` occurs strictly before every
event satisfying `q`. -/
def eventsSeparated (tr : List ActEvent) (p q : ActEvent → Prop) : Prop :=
  ∀ (i j : Nat) (hi : i < tr.length) (hj : j < tr.length),
    p (tr.get ⟨i, hi⟩) → q (tr.get ⟨j, hj⟩) → i < j

/-- Shorthand for "the event is a cache deletion". -/
def isDeleteEvent (e : ActEvent) : Prop := ∃ n, e = ActEvent.deleteCache n

/-- Shorthand for "the event is a client broadcast". -/
def isPostEvent (e : ActEvent) : Prop := ∃ c tag, e = ActEvent.post c tag

/-! ### Request router (sw.js lines 117-230) -/

/-- Model of an intercepted `Request`: method, absolute URL, `destination`,
`mode`, and the `accept` header (`none` models `headers.get('accept')`
returning null). -/
structure Request where
  method : String
  url : String
  destination : String
  mode : String
  accept : Option String
deriving DecidableEq, Repr

/-- Models `isHTMLRequest`, lines 187-194. -/
def isHTMLRequest (req : Request) : Bool :=
  req.destination == "document" ||
  req.mode == "navigate" ||
  jsEndsWith req.url "/" ||
  jsIncludes req.url "index.html" ||
  (match req.accept with
   | some a => jsIncludes a "text/html"
   | none => false)

/-- First cache hit over an ordered list of fallback keys (the loop at
lines 176-180). -/
def firstCacheHit (cache : Cache) : List String → Option Response
  | [] => none
  | a :: rest =>
    match cacheMatch cache a with
    | some r => some r
    | none => firstCacheHit cache rest

/-- Models `getCachedResponse`, lines 167-184: exact match first, then, for
page requests only, the fallback keys `'./'`, `'./index.html'`, `'/'` in that
order. -/
def getCachedResponse (cache : Cache) (req : Request) : Option Response :=
  match cacheMatch cache req.url with
  | some r => some r
  | none =>
    if isHTMLRequest req then
      firstCacheHit cache ["./", "./index.html", "/"]
    else none

/-- The offline placeholder markup, lines 280-316, verbatim. -/
def offlineHTML : String :=
  "<!DOCTYPE html>\n<html lang=\"cs\">\n<head>\n    <meta charset=\"UTF-8\">\n    <meta name=\"viewport\" content=\"width=device-width, initial-scale=1.0\">\n    <title>Kalend√°≈ôn√≠ kalkul√°tor - Offline</title>\n    <style>\n        body \x7b\n            font-family: Arial, sans-serif;\n            background: linear-gradient(135deg, #8B7355 0%, #4A4A3A 100%);\n            color: #F5E6D3; margin: 0; padding: 20px; min-height: 100vh;\n            display: flex; align-items: center; justify-content: center; text-align: center;\n        \x7d\n        .container \x7b \n            background: rgba(0,0,0,0.3); padding: 40px; border-radius: 20px; max-width: 500px; \n        \x7d\n        h1 \x7b margin-bottom: 20px; color: #CDBA96; \x7d\n        .status \x7b \n            background: #f59e0b; color: white; padding: 15px 25px; border-radius: 25px; \n            margin: 20px 0; font-weight: bold; \n        \x7d\n        button \x7b \n            background: #8B7355; color: white; border: none; padding: 15px 30px; \n            border-radius: 10px; font-size: 16px; cursor: pointer; margin: 10px; \n        \x7d\n        button:hover \x7b background: #6B5B47; \x7d\n    </style>\n</head>\n<body>\n    <div class=\"container\">\n        <h1>üìÖ Kalend√°≈ôn√≠ kalkul√°tor</h1>\n        <div class=\"status\">üì± Cache se naƒç√≠t√°...</div>\n        <p>Aplikace se p≈ôipravuje pro offline pou≈æit√≠.</p>\n        <button onclick=\"window.location.reload()\">üîÑ Zkusit znovu</button>\n    </div>\n</body>\n</html>"

/-- Models `createOfflineResponse`, lines 318-321. -/
def createOfflineResponse : Response :=
  { status := 200, contentType := "text/html; charset=utf-8", body := offlineHTML }

/-- Models `createErrorResponse`, lines 325-330. -/
def createErrorResponse : Response :=
  { status := 500, contentType := "text/plain", body := "Service Worker Error" }

/-- What `tryNetwork` produces: the value returned or error thrown, the cache
contents at the moment it returns, the `cache.put` calls it initiated without
awaiting them (line 212), and the number of network fetches it awaited. -/
structure NetAttempt where
  result : Except String Response
  cacheAtReturn : Cache
  pendingPuts : List (String × Response)
  fetches : Nat
deriving Repr

/-- Models `tryNetwork`, lines 197-230.  `net` is the settled outcome of the
(timeout-bounded) `fetch`: `none` covers rejection, abort and timeout.  On an
ok response the code calls `cache.put(request, response.clone())` WITHOUT
awaiting it and returns the response at once, so the put is only pending when
`tryNetwork` returns.  Non-ok responses throw; the `catch` turns any failure
into the offline placeholder for page requests and rethrows otherwise. -/
def tryNetwork (cache : Cache) (req : Request) (net : Option Response) :
    NetAttempt :=
  let attempt : Except String (Response × List (String × Response)) :=
    match net with
    | some r =>
      if r.ok then Except.ok (r, [(req.url, r)])
      else Except.error "Network response not ok"
    | none => Except.error "fetch failed or timed out"
  match attempt with
  | .ok (r, puts) =>
      { result := .ok r, cacheAtReturn := cache, pendingPuts := puts, fetches := 1 }
  | .error e =>
      if isHTMLRequest req then
        { result := .ok createOfflineResponse, cacheAtReturn := cache,
          pendingPuts := [], fetches := 1 }
      else
        { result := .error e, cacheAtReturn := cache,
          pendingPuts := [], fetches := 1 }

/-- Settled state of the promise `handleRequest` hands to `respondWith`:
resolved with a response, or rejected. -/
inductive HandleResult where
  | resp (r : Response)
  | failure (e : String)
deriving DecidableEq, Repr

/-- What `handleRequest` produces, with the effect bookkeeping needed by the
claims: network fetches awaited before the response is produced, whether a
non-blocking background refresh was fired, the cache contents at return, and
still-pending unawaited puts. -/
structure HandleOutcome where
  result : HandleResult
  blockingFetches : Nat
  backgroundRefreshScheduled : Bool
  cacheAtReturn : Cache
  pendingPuts : List (String × Response)
deriving DecidableEq, Repr

/-- Models `handleRequest`, lines 140-164: cache first (returning the hit at
once and, for page requests, firing the non-blocking background refresh),
else `tryNetwork`; any error is caught at line 160 and converted into
`createErrorResponse`, so the returned promise never rejects. -/
def handleRequest (cache : Cache) (req : Request) (net : Option Response) :
    HandleOutcome :=
  match getCachedResponse cache req with
  | some r =>
      { result := .resp r, blockingFetches := 0,
        backgroundRefreshScheduled := isHTMLRequest req,
        cacheAtReturn := cache, pendingPuts := [] }
  | none =>
    let a := tryNetwork cache req net
    match a.result with
    | .ok r =>
        { result := .resp r, blockingFetches := a.fetches,
          backgroundRefreshScheduled := false,
          cacheAtReturn := a.cacheAtReturn, pendingPuts := a.pendingPuts }
    | .error _ =>
        { result := .resp createErrorResponse, blockingFetches := a.fetches,
          backgroundRefreshScheduled := false,
          cacheAtReturn := a.cacheAtReturn, pendingPuts := a.pendingPuts }

/-- What the fetch listener does with an intercepted request. -/
inductive RouteResult where
  | notIntercepted
  | forcedNetwork (net : Option Response)
  | handled (o : HandleOutcome)
deriving DecidableEq, Repr

/-- Models the fetch listener, lines 117-137: only same-origin GET requests
are intercepted; URLs containing `'sw.js'` are answered by
`respondWith(fetch(request))`, bypassing the cache; everything else goes to
`handleRequest`. -/
def routeFetch (origin : String) (cache : Cache) (req : Request)
    (net : Option Response) : RouteResult :=
  if req.method != "GET" then RouteResult.notIntercepted
  else if !jsStartsWith req.url origin then RouteResult.notIntercepted
  else if jsIncludes req.url "sw.js" then RouteResult.forcedNetwork net
  else RouteResult.handled (handleRequest cache req net)

/-- The settled state of the response promise the router delivers to
`respondWith` (`none` when the request was not intercepted at all).  A forced
network route resolves with whatever `fetch(request)` resolves with and
rejects when it rejects. -/
def routeDelivered : RouteResult → Option HandleResult
  | .notIntercepted => none
  | .forcedNetwork (some r) => some (.resp r)
  | .forcedNetwork none => some (.failure "fetch failed")
  | .handled o => some o.result

/-- Network fetches awaited in producing the delivered response. -/
def routeBlockingFetches : RouteResult → Nat
  | .notIntercepted => 0
  | .forcedNetwork _ => 1
  | .handled o => o.blockingFetches

/-- Applies a list of pending puts to a cache, in order. -/
def applyPuts (c : Cache) (ps : List (String × Response)) : Cache :=
  ps.foldl (fun c p => cachePut c p.1 p.2) c

/-! ### Background refresh rate limit (sw.js lines 233-241) -/

/-- One step of `updateInBackground`'s rate-limit gate.  `fetched` says
whether this invocation performed the live fetch; `last` is the value of
`self.lastBackgroundUpdate` afterwards; `fetchedUrl` is the URL fetched. -/
structure BgUpdateStep where
  fetched : Bool
  last : Nat
  fetchedUrl : Option String
deriving DecidableEq, Repr

/-- Models `updateInBackground`, lines 233-242: the guard reads the single
process-wide timestamp `self.lastBackgroundUpdate` (`last = 0` models its
initial undefined state, matching the JS falsiness check) and skips the fetch
when it is set and less than 30000 ms old; otherwise it stamps the current
time and fires the live fetch for the request. -/
def updateInBackground (req : Request) (now : Nat) (last : Nat) : BgUpdateStep :=
  if last != 0 && now - last < 30000 then
    { fetched := false, last := last, fetchedUrl := none }
  else
    { fetched := true, last := now, fetchedUrl := some req.url }

/-! ### Helper lemmas -/

/-- The per-URL install promise always settles fulfilled: its trailing
`.catch` replaces every rejection with `Promise.resolve()`. -/
theorem settledOf_fetchAndPut (u : String) (o : FetchOutcome) :
    settledOf (fetchAndPut u o) = Settled.fulfilled := by
  cases o with
  | netFail => rfl
  | resp r =>
    cases hok : r.ok <;> simp [fetchAndPut, jsCatch, settledOf, hok]

/-- Counting the complement of a filter. -/
theorem length_filter_not {α : Type} (p : α → Bool) (l : List α) :
    (l.filter (fun a => !p a)).length = l.length - (l.filter p).length := by
  induction l with
  | nil => rfl
  | cons a l ih =>
    have hle := List.length_filter_le p l
    cases h : p a <;> simp [List.filter_cons, h, ih] <;> omega

/-- A put under a key absent from the cache appends the entry. -/
theorem cachePut_of_fresh {c : Cache} {u : String}
    (h : ∀ e ∈ c, e.1 ≠ u) (r : Response) :
    cachePut c u r = c ++ [(u, r)] := by
  have hany : c.any (fun e => e.1 == u) = false := by
    rw [Bool.eq_false_iff]
    intro hc
    rw [List.any_eq_true] at hc
    obtain ⟨e, he, hbe⟩ := hc
    exact h e he (by simpa using hbe)
  simp [cachePut, hany]

/-- Size of the cache produced by the install fold: starting from a cache
whose keys avoid the (duplicate-free) manifest, each successfully fetched
identifier adds exactly one entry. -/
theorem installFold_length (net : Network) :
    ∀ (urls : List String) (c : Cache), urls.Nodup → (∀ e ∈ c, e.1 ∉ urls) →
      (urls.foldl (fun c u => installStep c u (net u)) c).length
        = c.length + (urls.filter (fun u => !fetchFailed (net u))).length := by
  intro urls
  induction urls with
  | nil => intro c _ _; simp
  | cons u urls ih =>
    intro c hnd hkeys
    rcases List.nodup_cons.mp hnd with ⟨hu, hnd'⟩
    rw [List.foldl_cons]
    cases ho : net u with
    | netFail =>
      have hstep : installStep c u FetchOutcome.netFail = c := by simp [installStep]
      have hfail : fetchFailed (net u) = true := by simp [fetchFailed, ho]
      rw [hstep, ih c hnd' (fun e he hmem => hkeys e he (List.mem_cons_of_mem _ hmem))]
      simp [List.filter_cons, hfail]
    | resp r =>
      cases hok : r.ok with
      | false =>
        have hstep : installStep c u (FetchOutcome.resp r) = c := by
          simp [installStep, hok]
        have hfail : fetchFailed (net u) = true := by simp [fetchFailed, ho, hok]
        rw [hstep, ih c hnd' (fun e he hmem => hkeys e he (List.mem_cons_of_mem _ hmem))]
        simp [List.filter_cons, hfail]
      | true =>
        have hstep : installStep c u (FetchOutcome.resp r) = c ++ [(u, r)] := by
          have hfresh : ∀ e ∈ c, e.1 ≠ u := by
            intro e he heq
            exact hkeys e he (by simp [heq])
          simp [installStep, hok, cachePut_of_fresh hfresh]
        have hfail : fetchFailed (net u) = false := by simp [fetchFailed, ho, hok]
        have hkeys' : ∀ e ∈ c ++ [(u, r)], e.1 ∉ urls := by
          intro e he
          rcases List.mem_append.mp he with he' | he'
          · intro hmem
            exact hkeys e he' (List.mem_cons_of_mem _ hmem)
          · rcases List.mem_singleton.mp he' with rfl
            exact hu
        rw [hstep, ih (c ++ [(u, r)]) hnd' hkeys']
        simp [List.filter_cons, hfail]
        omega

/-- In a duplicate-free list containing `a`, filtering for `a` yields `[a]`. -/
theorem filter_beq_singleton {α : Type} [DecidableEq α] :
    ∀ {l : List α} {a : α}, l.Nodup → a ∈ l → l.filter (fun x => x == a) = [a] := by
  intro l
  induction l with
  | nil => intro a _ ha; cases ha
  | cons b l ih =>
    intro a hnd ha
    rcases List.nodup_cons.mp hnd with ⟨hb, hnd'⟩
    rcases List.mem_cons.mp ha with rfl | ha'
    · rw [List.filter_cons]
      have hnil : l.filter (fun x => x == a) = [] := by
        rw [List.filter_eq_nil_iff]
        intro x hx hbe
        exact hb (by simpa using (eq_of_beq hbe) ▸ hx)
      simp [hnil]
    · have hne : (b == a) = false := by
        rw [beq_eq_false_iff_ne]
        intro rfl_h
        exact hb (rfl_h ▸ ha')
      rw [List.filter_cons]
      simp [hne, ih hnd' ha']

/-- The freshly generated cache name always carries the base-name prefix. -/
theorem jsStartsWith_cacheName (t : Nat) :
    jsStartsWith (CACHE_NAME t) CACHE_BASE_NAME = true := by
  simp only [jsStartsWith, CACHE_NAME, List.isPrefixOf_iff_prefix, String.data_append]
  rw [List.append_assoc]
  exact List.prefix_append _ _

/-- Last write wins: after a put, matching the key yields the stored value. -/
theorem cacheMatch_cachePut (c : Cache) (u : String) (r : Response) :
    cacheMatch (cachePut c u r) u = some r := by
  unfold cachePut
  split
  case isTrue h =>
    unfold cacheMatch
    induction c with
    | nil => simp at h
    | cons e c ih =>
      cases he : (e.1 == u) with
      | true => simp [List.find?, he]
      | false =>
        have h' : c.any (fun e => e.1 == u) = true := by
          rw [List.any_cons] at h
          simpa [he] using h
        simpa [List.find?, he] using ih h'
  case isFalse h =>
    unfold cacheMatch
    have hnone : c.find? (fun e => e.1 == u) = none := by
      rw [List.find?_eq_none]
      intro e he hbe
      exact h (List.any_eq_true.mpr ⟨e, he, hbe⟩)
    rw [List.find?_append, hnone]
    simp [List.find?]

/-- Positional separation in an appended trace: if nothing in the right part
satisfies `p` and nothing in the left part satisfies `q`, every `p`-event
precedes every `q`-event. -/
theorem sep_of_append {l₁ l₂ : List ActEvent} {p q : ActEvent → Prop}
    (hp : ∀ x ∈ l₂, ¬ p x) (hq : ∀ x ∈ l₁, ¬ q x) :
    eventsSeparated (l₁ ++ l₂) p q := by
  intro i j hi hj hpi hqj
  have hil : i < l₁.length := by
    by_contra hc
    push_neg at hc
    have hmem : (l₁ ++ l₂).get ⟨i, hi⟩ ∈ l₂ := by
      rw [List.get_eq_getElem, List.getElem_append_right hc]
      exact List.getElem_mem _
    exact hp _ hmem hpi
  have hjl : l₁.length ≤ j := by
    by_contra hc
    push_neg at hc
    have hmem : (l₁ ++ l₂).get ⟨j, hj⟩ ∈ l₁ := by
      rw [List.get_eq_getElem, List.getElem_append_left hc]
      exact List.getElem_mem _
    exact hq _ hmem hqj
  omega

/-! ### Claims -/

/-- C10: at the end of every install run, the diagnostic count of failed
resources computed from the settled results is zero, no matter how many
per-resource fetches failed: each failure is caught and replaced by a
fulfilled promise before `Promise.allSettled` tallies, so the `rejected`
branch of the results filter is unreachable. -/
theorem install_failed_diagnostic_always_zero (urls : List String) (net : Network) :
    (installRun urls net).failedCount = 0 := by
  show ((urls.map (fun u => settledOf (fetchAndPut u (net u)))).filter
      (fun r => r == Settled.rejected)).length = 0
  rw [List.length_eq_zero, List.filter_eq_nil_iff]
  intro a ha
  rw [List.mem_map] at ha
  obtain ⟨u, _, rfl⟩ := ha
  rw [settledOf_fetchAndPut]
  decide

/-- C4: invoking install a second time while an installPromise for the target
version is memoized coalesces onto the same single attempt: the fetch set over
the manifest is performed exactly once across both invocations, both wait on
the same outcome, and the memo is unchanged. -/
theorem install_coalesced_idempotent (urls : List String) (net : Network) :
    (handleInstall urls net none).2.2 = urls.length
    ∧ (handleInstall urls net (handleInstall urls net none).1).2.2 = 0
    ∧ (handleInstall urls net (handleInstall urls net none).1).2.1
        = (handleInstall urls net none).2.1
    ∧ (handleInstall urls net (handleInstall urls net none).1).1
        = (handleInstall urls net none).1 := by
  simp [handleInstall]

/-- C1: for every install run over a duplicate-free manifest of N resource
identifiers of which K fail to fetch (K < N), the install completes with
exactly N - K entries stored in the new version's cache, and is reported
complete (installed flag set, `skipWaiting` called), never as failed. -/
theorem install_partial_failure_tolerated (urls : List String) (net : Network)
    (hnd : urls.Nodup)
    (hK : (urls.filter (fun u => fetchFailed (net u))).length < urls.length) :
    (installRun urls net).cache.length
        = urls.length - (urls.filter (fun u => fetchFailed (net u))).length
    ∧ (installRun urls net).reportedComplete = true
    ∧ (installRun urls net).isInstalled = true
    ∧ (installRun urls net).skipWaitingCalled = true := by
  refine ⟨?_, rfl, rfl, rfl⟩
  show (urls.foldl (fun c u => installStep c u (net u)) []).length
      = urls.length - (urls.filter (fun u => fetchFailed (net u))).length
  rw [installFold_length net urls [] hnd (by simp)]
  simpa using length_filter_not (fun u => fetchFailed (net u)) urls

/-- Witness for C1 at a concrete manifest of two identifiers with one failing
fetch: two minus one entry is stored and the run reports complete. -/
theorem install_partial_failure_tolerated_witness :
    (["./a", "./b"] : List String).Nodup
    ∧ ((["./a", "./b"] : List String).filter
        (fun u => fetchFailed
          (if u == "./a" then FetchOutcome.resp ⟨200, "text/plain", "A"⟩
           else FetchOutcome.netFail))).length < 2
    ∧ ((installRun ["./a", "./b"]
          (fun u => if u == "./a" then FetchOutcome.resp ⟨200, "text/plain", "A"⟩
                    else FetchOutcome.netFail)).cache.length
        = 2 - ((["./a", "./b"] : List String).filter
            (fun u => fetchFailed
              (if u == "./a" then FetchOutcome.resp ⟨200, "text/plain", "A"⟩
               else FetchOutcome.netFail))).length
      ∧ (installRun ["./a", "./b"]
          (fun u => if u == "./a" then FetchOutcome.resp ⟨200, "text/plain", "A"⟩
                    else FetchOutcome.netFail)).reportedComplete = true
      ∧ (installRun ["./a", "./b"]
          (fun u => if u == "./a" then FetchOutcome.resp ⟨200, "text/plain", "A"⟩
                    else FetchOutcome.netFail)).isInstalled = true
      ∧ (installRun ["./a", "./b"]
          (fun u => if u == "./a" then FetchOutcome.resp ⟨200, "text/plain", "A"⟩
                    else FetchOutcome.netFail)).skipWaitingCalled = true) :=
  ⟨by decide, by decide,
   install_partial_failure_tolerated ["./a", "./b"]
     (fun u => if u == "./a" then FetchOutcome.resp ⟨200, "text/plain", "A"⟩
               else FetchOutcome.netFail)
     (by decide) (by decide)⟩

/-- C2: after activation's cleanup, enumerating the stored caches yields
exactly one name carrying the base-name prefix - the newly current version -
while caches not carrying the prefix are untouched.  The hypotheses record
that `caches.keys()` returns distinct names and that the current version's
cache exists (install opened it before activation). -/
theorem activation_prunes_to_single_version (t : Nat) (cacheNames : List String)
    (hnd : cacheNames.Nodup) (hmem : CACHE_NAME t ∈ cacheNames) :
    (activateCleanup t cacheNames).filter (fun n => jsStartsWith n CACHE_BASE_NAME)
        = [CACHE_NAME t]
    ∧ (activateCleanup t cacheNames).filter (fun n => !jsStartsWith n CACHE_BASE_NAME)
        = cacheNames.filter (fun n => !jsStartsWith n CACHE_BASE_NAME) := by
  constructor
  · rw [activateCleanup, List.filter_filter]
    have hpt : ∀ n ∈ cacheNames,
        (jsStartsWith n CACHE_BASE_NAME
          && !(jsStartsWith n CACHE_BASE_NAME && n != CACHE_NAME t))
          = (n == CACHE_NAME t) := by
      intro n _
      by_cases h : n = CACHE_NAME t
      · subst h
        simp [jsStartsWith_cacheName]
      · cases hs : jsStartsWith n CACHE_BASE_NAME <;> simp [hs, h, bne]
    rw [List.filter_congr hpt]
    exact filter_beq_singleton hnd hmem
  · rw [activateCleanup, List.filter_filter]
    apply List.filter_congr
    intro n _
    cases hs : jsStartsWith n CACHE_BASE_NAME <;> simp [hs]

/-- Witness for C2 at a concrete store holding the current version, one
superseded version, and one unrelated cache. -/
theorem activation_prunes_to_single_version_witness :
    ([CACHE_NAME 5, "calendar-calculator-v1.60-3", "other-app"] : List String).Nodup
    ∧ CACHE_NAME 5
        ∈ ([CACHE_NAME 5, "calendar-calculator-v1.60-3", "other-app"] : List String)
    ∧ ((activateCleanup 5
          [CACHE_NAME 5, "calendar-calculator-v1.60-3", "other-app"]).filter
          (fun n => jsStartsWith n CACHE_BASE_NAME) = [CACHE_NAME 5]
      ∧ (activateCleanup 5
          [CACHE_NAME 5, "calendar-calculator-v1.60-3", "other-app"]).filter
          (fun n => !jsStartsWith n CACHE_BASE_NAME)
          = ([CACHE_NAME 5, "calendar-calculator-v1.60-3", "other-app"]
              : List String).filter (fun n => !jsStartsWith n CACHE_BASE_NAME)) :=
  ⟨by decide, by decide,
   activation_prunes_to_single_version 5
     [CACHE_NAME 5, "calendar-calculator-v1.60-3", "other-app"]
     (by decide) (by decide)⟩

/-- C3 counterexample: in the activation trace for a store holding one
superseded version, the claim of the connected clients is requested (index 1)
BEFORE the deletion of the superseded version occurs (index 2), because the
code runs cleanup and `clients.claim()` concurrently inside `Promise.all`;
so deletion does not complete before clients are claimed, refuting the claim
as stated. -/
theorem activation_claim_requested_before_deletion :
    ¬ eventsSeparated
        (activateTrace 0 ["calendar-calculator-v1.60-3", CACHE_NAME 0] [7])
        isDeleteEvent (fun e => e = ActEvent.claimRequested) := by
  intro h
  have htr : activateTrace 0 ["calendar-calculator-v1.60-3", CACHE_NAME 0] [7]
      = [ActEvent.keysRequested, ActEvent.claimRequested,
         ActEvent.deleteCache "calendar-calculator-v1.60-3",
         ActEvent.setInstalled, ActEvent.matchAllRequested,
         ActEvent.post 7 "SW_ACTIVATED"] := by decide
  rw [htr] at h
  have h21 := h 2 1 (by norm_num) (by norm_num)
      ⟨"calendar-calculator-v1.60-3", rfl⟩ rfl
  omega

/-- C3 (amended): deletion of superseded versions and claiming of clients are
initiated concurrently - the claim request is issued before any deletion
occurs - and the SW_ACTIVATED broadcast is sent to every connected session
only after both have settled: in every activation trace the claim request
precedes all deletions, and every broadcast follows all deletions and the
claim request. -/
theorem activation_broadcast_after_cleanup_and_claim
    (t : Nat) (cacheNames : List String) (clients : List Nat) :
    eventsSeparated (activateTrace t cacheNames clients)
        (fun e => e = ActEvent.claimRequested) isDeleteEvent
    ∧ eventsSeparated (activateTrace t cacheNames clients) isDeleteEvent isPostEvent
    ∧ eventsSeparated (activateTrace t cacheNames clients)
        (fun e => e = ActEvent.claimRequested) isPostEvent := by
  refine ⟨?_, ?_, ?_⟩
  · have hsplit : activateTrace t cacheNames clients
        = [ActEvent.keysRequested, ActEvent.claimRequested]
          ++ ((cacheNames.filter
                (fun n => jsStartsWith n CACHE_BASE_NAME && n != CACHE_NAME t)).map
               ActEvent.deleteCache
              ++ ([ActEvent.setInstalled, ActEvent.matchAllRequested]
                  ++ clients.map (fun c => ActEvent.post c "SW_ACTIVATED"))) := by
      simp [activateTrace]
    rw [hsplit]
    apply sep_of_append
    · intro x hx
      rcases List.mem_append.mp hx with hx' | hx'
      · rcases List.mem_map.mp hx' with ⟨n, _, rfl⟩
        simp
      · rcases List.mem_append.mp hx' with hx2 | hx2
        · rcases List.mem_cons.mp hx2 with rfl | hx3
          · simp
          · rcases List.mem_singleton.mp hx3 with rfl
            simp
        · rcases List.mem_map.mp hx2 with ⟨c, _, rfl⟩
          simp
    · intro x hx hdel
      rcases hdel with ⟨n, rfl⟩
      rcases List.mem_cons.mp hx with h1 | hx2
      · exact absurd h1 (by simp)
      · rcases List.mem_singleton.mp hx2 with h2
        exact absurd h2 (by simp)
  · have hsplit : activateTrace t cacheNames clients
        = ([ActEvent.keysRequested, ActEvent.claimRequested]
           ++ (cacheNames.filter
                (fun n => jsStartsWith n CACHE_BASE_NAME && n != CACHE_NAME t)).map
               ActEvent.deleteCache
           ++ [ActEvent.setInstalled, ActEvent.matchAllRequested])
          ++ clients.map (fun c => ActEvent.post c "SW_ACTIVATED") := by
      simp [activateTrace]
    rw [hsplit]
    apply sep_of_append
    · intro x hx hdel
      rcases hdel with ⟨n, rfl⟩
      rcases List.mem_map.mp hx with ⟨c, _, hc⟩
      exact absurd hc (by simp)
    · intro x hx hpost
      rcases hpost with ⟨c, tag, rfl⟩
      rcases List.mem_append.mp hx with hx' | hx'
      · rcases List.mem_append.mp hx' with hx2 | hx2
        · rcases List.mem_cons.mp hx2 with h1 | hx3
          · exact absurd h1 (by simp)
          · rcases List.mem_singleton.mp hx3 with h2
            exact absurd h2 (by simp)
        · rcases List.mem_map.mp hx2 with ⟨n, _, hn⟩
          exact absurd hn (by simp)
      · rcases List.mem_cons.mp hx' with h1 | hx2
        · exact absurd h1 (by simp)
        · rcases List.mem_singleton.mp hx2 with h2
          exact absurd h2 (by simp)
  · have hsplit : activateTrace t cacheNames clients
        = ([ActEvent.keysRequested, ActEvent.claimRequested]
           ++ (cacheNames.filter
                (fun n => jsStartsWith n CACHE_BASE_NAME && n != CACHE_NAME t)).map
               ActEvent.deleteCache
           ++ [ActEvent.setInstalled, ActEvent.matchAllRequested])
          ++ clients.map (fun c => ActEvent.post c "SW_ACTIVATED") := by
      simp [activateTrace]
    rw [hsplit]
    apply sep_of_append
    · intro x hx hcl
      rcases List.mem_map.mp hx with ⟨c, _, hc⟩
      rw [hcl] at hc
      exact absurd hc (by simp)
    · intro x hx hpost
      rcases hpost with ⟨c, tag, rfl⟩
      rcases List.mem_append.mp hx with hx' | hx'
      · rcases List.mem_append.mp hx' with hx2 | hx2
        · rcases List.mem_cons.mp hx2 with h1 | hx3
          · exact absurd h1 (by simp)
          · rcases List.mem_singleton.mp hx3 with h2
            exact absurd h2 (by simp)
        · rcases List.mem_map.mp hx2 with ⟨n, _, hn⟩
          exact absurd hn (by simp)
      · rcases List.mem_cons.mp hx' with h1 | hx2
        · exact absurd h1 (by simp)
        · rcases List.mem_singleton.mp hx2 with h2
          exact absurd h2 (by simp)

/-! ### Concrete fixtures for router counterexamples and witnesses -/

/-- A GET request for the controller's own script. -/
def swScriptReq : Request :=
  { method := "GET", url := "https://app.example/sw.js", destination := "script",
    mode := "no-cors", accept := none }

/-- The copy of the controller script stored in the cache (it is in the
install manifest). -/
def swScriptCachedResp : Response :=
  ⟨200, "application/javascript", "cached copy"⟩

/-- A current cache store holding the controller script. -/
def swScriptCache : Cache :=
  [("https://app.example/sw.js", swScriptCachedResp)]

/-- The live copy of the controller script on the network. -/
def swScriptNetResp : Response :=
  ⟨200, "application/javascript", "fresh copy"⟩

/-- A same-origin GET request for a JSON resource: not a page request. -/
def jsonReq : Request :=
  { method := "GET", url := "https://app.example/data.json", destination := "",
    mode := "cors", accept := some "application/json" }

/-- A live network response for the JSON resource. -/
def jsonResp : Response := ⟨200, "application/json", "fresh"⟩

/-- A same-origin GET request for a stylesheet: cached, not a page request. -/
def cssReq : Request :=
  { method := "GET", url := "https://app.example/app.css",
    destination := "style", mode := "no-cors", accept := none }

/-- The cached stylesheet entry. -/
def cssResp : Response := ⟨200, "text/css", "body"⟩

/-- A same-origin GET page navigation (URL ends in a slash). -/
def pageReq : Request :=
  { method := "GET", url := "https://app.example/page/", destination := "",
    mode := "", accept := none }

/-- C5 counterexample: a GET request whose identifier (the controller's own
script URL) has an entry in the current cache store is nevertheless answered
by `respondWith(fetch(request))` - one awaited network fetch, the live
response instead of the cached content - because the fetch listener forces
every URL containing `sw.js` to the network before `handleRequest` runs. -/
theorem cached_swjs_request_forced_to_network :
    swScriptReq.method = "GET"
    ∧ cacheMatch swScriptCache swScriptReq.url = some swScriptCachedResp
    ∧ ¬(routeDelivered
          (routeFetch "https://app.example" swScriptCache swScriptReq
            (some swScriptNetResp))
          = some (HandleResult.resp swScriptCachedResp)
        ∧ routeBlockingFetches
            (routeFetch "https://app.example" swScriptCache swScriptReq
              (some swScriptNetResp)) = 0) := by
  refine ⟨rfl, by decide, ?_⟩
  rintro ⟨hresp, hfetch⟩
  have hroute : routeFetch "https://app.example" swScriptCache swScriptReq
      (some swScriptNetResp) = RouteResult.forcedNetwork (some swScriptNetResp) := by
    decide
  rw [hroute] at hfetch
  exact absurd hfetch (by decide)

/-- C5 (amended): for every same-origin GET request whose URL does not name
the controller script, if its identifier has an entry in the current cache
store then the router delivers exactly that cached content and awaits no
network fetch in producing the response (for page requests it may
additionally fire the non-blocking background refresh). -/
theorem cache_hit_served_without_network
    (origin : String) (cache : Cache) (req : Request) (net : Option Response)
    (r : Response)
    (hm : req.method = "GET")
    (horig : jsStartsWith req.url origin = true)
    (hsw : jsIncludes req.url "sw.js" = false)
    (hhit : cacheMatch cache req.url = some r) :
    routeDelivered (routeFetch origin cache req net) = some (HandleResult.resp r)
    ∧ routeBlockingFetches (routeFetch origin cache req net) = 0 := by
  have hroute : routeFetch origin cache req net
      = RouteResult.handled (handleRequest cache req net) := by
    simp [routeFetch, hm, horig, hsw]
  have hhandle : handleRequest cache req net
      = { result := .resp r, blockingFetches := 0,
          backgroundRefreshScheduled := isHTMLRequest req,
          cacheAtReturn := cache, pendingPuts := [] } := by
    simp [handleRequest, getCachedResponse, hhit]
  rw [hroute, hhandle]
  exact ⟨rfl, rfl⟩

/-- Witness for the amended C5 at a concrete cached stylesheet request. -/
theorem cache_hit_served_without_network_witness :
    cssReq.method = "GET"
    ∧ jsStartsWith cssReq.url "https://app.example" = true
    ∧ jsIncludes cssReq.url "sw.js" = false
    ∧ cacheMatch [(cssReq.url, cssResp)] cssReq.url = some cssResp
    ∧ (routeDelivered (routeFetch "https://app.example" [(cssReq.url, cssResp)]
          cssReq none) = some (HandleResult.resp cssResp)
      ∧ routeBlockingFetches (routeFetch "https://app.example"
          [(cssReq.url, cssResp)] cssReq none) = 0) :=
  ⟨rfl, by decide, by decide, by decide,
   cache_hit_served_without_network "https://app.example" [(cssReq.url, cssResp)]
     cssReq none cssResp rfl (by decide) (by decide) (by decide)⟩

/-- C6: for every same-origin GET page/document request (not naming the
controller script) with no cached entry - exact or fallback - whose network
fetch fails or times out, the router delivers the built-in self-contained
offline placeholder: status 200, HTML content type, not the error response. -/
theorem offline_placeholder_for_failed_page_request
    (origin : String) (cache : Cache) (req : Request)
    (hm : req.method = "GET")
    (horig : jsStartsWith req.url origin = true)
    (hsw : jsIncludes req.url "sw.js" = false)
    (hpage : isHTMLRequest req = true)
    (hmiss : getCachedResponse cache req = none) :
    routeDelivered (routeFetch origin cache req none)
        = some (HandleResult.resp createOfflineResponse)
    ∧ createOfflineResponse.status = 200
    ∧ createOfflineResponse.contentType = "text/html; charset=utf-8"
    ∧ createOfflineResponse ≠ createErrorResponse := by
  have hroute : routeFetch origin cache req none
      = RouteResult.handled (handleRequest cache req none) := by
    simp [routeFetch, hm, horig, hsw]
  have hnet : tryNetwork cache req none
      = { result := .ok createOfflineResponse, cacheAtReturn := cache,
          pendingPuts := [], fetches := 1 } := by
    simp [tryNetwork, hpage]
  have hhandle : (handleRequest cache req none).result
      = HandleResult.resp createOfflineResponse := by
    simp [handleRequest, hmiss, hnet]
  refine ⟨?_, rfl, rfl, ?_⟩
  · rw [hroute]
    simp [routeDelivered, hhandle]
  · intro h
    have hst := congrArg Response.status h
    simp [createOfflineResponse, createErrorResponse] at hst

/-- Witness for C6 at a concrete uncached page navigation while offline. -/
theorem offline_placeholder_for_failed_page_request_witness :
    pageReq.method = "GET"
    ∧ jsStartsWith pageReq.url "https://app.example" = true
    ∧ jsIncludes pageReq.url "sw.js" = false
    ∧ isHTMLRequest pageReq = true
    ∧ getCachedResponse [] pageReq = none
    ∧ (routeDelivered (routeFetch "https://app.example" [] pageReq none)
        = some (HandleResult.resp createOfflineResponse)
      ∧ createOfflineResponse.status = 200
      ∧ createOfflineResponse.contentType = "text/html; charset=utf-8"
      ∧ createOfflineResponse ≠ createErrorResponse) :=
  ⟨rfl, by decide, by decide, by decide, by decide,
   offline_placeholder_for_failed_page_request "https://app.example" [] pageReq
     rfl (by decide) (by decide) (by decide) (by decide)⟩

/-- C7 counterexample: for a same-origin GET non-page request with no cached
entry whose network fetch fails, the router does NOT deliver the failure to
the caller: `handleRequest`'s catch-all (line 160) converts the error thrown
by `tryNetwork` into the generic 500 `createErrorResponse`, so the delivered
promise resolves with a response and never rejects. -/
theorem nonpage_failure_not_propagated_to_caller :
    jsonReq.method = "GET"
    ∧ jsStartsWith jsonReq.url "https://app.example" = true
    ∧ isHTMLRequest jsonReq = false
    ∧ getCachedResponse [] jsonReq = none
    ∧ routeDelivered (routeFetch "https://app.example" [] jsonReq none)
        = some (HandleResult.resp createErrorResponse)
    ∧ ¬ ∃ e, routeDelivered (routeFetch "https://app.example" [] jsonReq none)
        = some (HandleResult.failure e) := by
  refine ⟨rfl, by decide, by decide, by decide, by decide, ?_⟩
  rintro ⟨e, he⟩
  have h3 : routeDelivered (routeFetch "https://app.example" [] jsonReq none)
      = some (HandleResult.resp createErrorResponse) := by decide
  rw [h3] at he
  exact absurd he (by simp)

/-- C7 (amended): for every same-origin GET non-page request (not naming the
controller script) with no cached entry whose network fetch fails or times
out, no offline placeholder is substituted: the failure propagates out of the
network layer (`tryNetwork` rethrows it), and the router's top-level catch
converts it into the generic 500 error response delivered to the caller. -/
theorem nonpage_network_failure_surfaces_as_500
    (origin : String) (cache : Cache) (req : Request)
    (hm : req.method = "GET")
    (horig : jsStartsWith req.url origin = true)
    (hsw : jsIncludes req.url "sw.js" = false)
    (hnp : isHTMLRequest req = false)
    (hmiss : getCachedResponse cache req = none) :
    (∃ e, (tryNetwork cache req none).result = Except.error e)
    ∧ routeDelivered (routeFetch origin cache req none)
        = some (HandleResult.resp createErrorResponse)
    ∧ routeDelivered (routeFetch origin cache req none)
        ≠ some (HandleResult.resp createOfflineResponse) := by
  have hnet : tryNetwork cache req none
      = { result := .error "fetch failed or timed out", cacheAtReturn := cache,
          pendingPuts := [], fetches := 1 } := by
    simp [tryNetwork, hnp]
  have hroute : routeFetch origin cache req none
      = RouteResult.handled (handleRequest cache req none) := by
    simp [routeFetch, hm, horig, hsw]
  have hhandle : (handleRequest cache req none).result
      = HandleResult.resp createErrorResponse := by
    simp [handleRequest, hmiss, hnet]
  refine ⟨⟨"fetch failed or timed out", by rw [hnet]⟩, ?_, ?_⟩
  · rw [hroute]
    simp [routeDelivered, hhandle]
  · rw [hroute]
    simp only [routeDelivered, hhandle]
    intro h
    have hst := congrArg Response.status (by simpa using h)
    simp [createOfflineResponse, createErrorResponse] at hst

/-- Witness for the amended C7 at a concrete uncached JSON request while
offline. -/
theorem nonpage_network_failure_surfaces_as_500_witness :
    jsonReq.method = "GET"
    ∧ jsStartsWith jsonReq.url "https://app.example" = true
    ∧ jsIncludes jsonReq.url "sw.js" = false
    ∧ isHTMLRequest jsonReq = false
    ∧ getCachedResponse [] jsonReq = none
    ∧ ((∃ e, (tryNetwork [] jsonReq none).result = Except.error e)
      ∧ routeDelivered (routeFetch "https://app.example" [] jsonReq none)
          = some (HandleResult.resp createErrorResponse)
      ∧ routeDelivered (routeFetch "https://app.example" [] jsonReq none)
          ≠ some (HandleResult.resp createOfflineResponse)) :=
  ⟨rfl, by decide, by decide, by decide, by decide,
   nonpage_network_failure_surfaces_as_500 "https://app.example" [] jsonReq
     rfl (by decide) (by decide) (by decide) (by decide)⟩

/-- C8 counterexample: on a cache-miss network fetch that succeeds with an ok
status, the response is returned while the cache, at the moment of return,
does NOT yet contain the copy: line 212 initiates
`cache.put(request, response.clone())` without awaiting it, so the write is
still pending when the response reaches the caller. -/
theorem network_success_returned_before_put_settles :
    getCachedResponse [] jsonReq = none
    ∧ jsonResp.ok = true
    ∧ (handleRequest [] jsonReq (some jsonResp)).result = HandleResult.resp jsonResp
    ∧ cacheMatch (handleRequest [] jsonReq (some jsonResp)).cacheAtReturn
        jsonReq.url = none
    ∧ (handleRequest [] jsonReq (some jsonResp)).pendingPuts
        = [(jsonReq.url, jsonResp)] :=
  ⟨by decide, by decide, by decide, by decide, by decide⟩

/-- C8 (amended): whenever a cache-miss network fetch during routing succeeds
with an ok status, a copy of the response is scheduled for storage - the put
on the current version's cache is initiated, but not awaited - before the
response is returned to the caller; the cache at return time is unchanged,
and holds the copy once the pending put settles. -/
theorem network_success_put_scheduled_not_awaited
    (cache : Cache) (req : Request) (r : Response)
    (hmiss : getCachedResponse cache req = none)
    (hok : r.ok = true) :
    (handleRequest cache req (some r)).result = HandleResult.resp r
    ∧ (handleRequest cache req (some r)).pendingPuts = [(req.url, r)]
    ∧ (handleRequest cache req (some r)).cacheAtReturn = cache
    ∧ cacheMatch
        (applyPuts (handleRequest cache req (some r)).cacheAtReturn
          (handleRequest cache req (some r)).pendingPuts)
        req.url = some r := by
  have hnet : tryNetwork cache req (some r)
      = { result := .ok r, cacheAtReturn := cache,
          pendingPuts := [(req.url, r)], fetches := 1 } := by
    simp [tryNetwork, hok]
  have hhandle : handleRequest cache req (some r)
      = { result := .resp r, blockingFetches := 1,
          backgroundRefreshScheduled := false,
          cacheAtReturn := cache, pendingPuts := [(req.url, r)] } := by
    simp [handleRequest, hmiss, hnet]
  rw [hhandle]
  refine ⟨rfl, rfl, rfl, ?_⟩
  simpa [applyPuts] using cacheMatch_cachePut cache req.url r

/-- Witness for the amended C8 at a concrete cache-miss JSON fetch. -/
theorem network_success_put_scheduled_not_awaited_witness :
    getCachedResponse [] jsonReq = none
    ∧ jsonResp.ok = true
    ∧ ((handleRequest [] jsonReq (some jsonResp)).result = HandleResult.resp jsonResp
      ∧ (handleRequest [] jsonReq (some jsonResp)).pendingPuts
          = [(jsonReq.url, jsonResp)]
      ∧ (handleRequest [] jsonReq (some jsonResp)).cacheAtReturn = []
      ∧ cacheMatch
          (applyPuts (handleRequest [] jsonReq (some jsonResp)).cacheAtReturn
            (handleRequest [] jsonReq (some jsonResp)).pendingPuts)
          jsonReq.url = some jsonResp) :=
  ⟨by decide, by decide,
   network_success_put_scheduled_not_awaited [] jsonReq jsonResp
     (by decide) (by decide)⟩

/-- C9: two invocations of the passive background refresh within 30 seconds
of each other perform at most one live fetch, whichever requests trigger
them: the gate reads and writes the single process-wide timestamp, not a
per-resource one.  The first timestamp is positive, as `Date.now()` always
is. -/
theorem background_refresh_rate_limited
    (req₁ req₂ : Request) (t₁ t₂ last₀ : Nat)
    (h0 : 0 < t₁) (hle : t₁ ≤ t₂) (hwin : t₂ - t₁ < 30000) :
    (if (updateInBackground req₁ t₁ last₀).fetched then 1 else 0)
      + (if (updateInBackground req₂ t₂
              (updateInBackground req₁ t₁ last₀).last).fetched then 1 else 0)
      ≤ 1 := by
  rcases Bool.eq_false_or_eq_true (last₀ != 0 && decide (t₁ - last₀ < 30000))
    with g1 | g1
  · have hfirst : updateInBackground req₁ t₁ last₀
        = { fetched := false, last := last₀, fetchedUrl := none } := by
      simp [updateInBackground, g1]
    rw [hfirst]
    rcases Bool.eq_false_or_eq_true (updateInBackground req₂ t₂ last₀).fetched
      with g2 | g2 <;> simp [g2]
  · have hfirst : updateInBackground req₁ t₁ last₀
        = { fetched := true, last := t₁, fetchedUrl := some req₁.url } := by
      simp [updateInBackground, g1]
    rw [hfirst]
    have hne : (t₁ != 0) = true := by
      simp [bne]
      omega
    have hg2 : (t₁ != 0 && decide (t₂ - t₁ < 30000)) = true := by
      rw [hne, Bool.true_and, decide_eq_true_eq]
      exact hwin
    have hsecond : updateInBackground req₂ t₂ t₁
        = { fetched := false, last := t₁, fetchedUrl := none } := by
      simp [updateInBackground, hg2]
    rw [hsecond]
    simp

/-- Witness for C9: two refresh triggers one millisecond apart, for two
different resources, starting from the unset timestamp. -/
theorem background_refresh_rate_limited_witness :
    0 < 1 ∧ 1 ≤ 2 ∧ 2 - 1 < 30000
    ∧ ((if (updateInBackground jsonReq 1 0).fetched then 1 else 0)
        + (if (updateInBackground swScriptReq 2
                (updateInBackground jsonReq 1 0).last).fetched then 1 else 0)
        ≤ 1) :=
  ⟨by decide, by decide, by decide,
   background_refresh_rate_limited jsonReq swScriptReq 1 2 0
     (by decide) (by decide) (by decide)⟩

end SW
